import Mathlib

/-!
Shallow embedding of `gdxpds/gdx.py`: the `GdxFile` container and `GdxSymbol`
model, with the external gdxcc session abstracted as pure data.  Stateful
Python methods become functions returning the post-state together with the
warnings logged and the (optional) exception raised; constructors, which in
Python discard the partially built object when they raise, return `Except`.
Numeric GDX channel payloads are carried as `Int` (no arithmetic is ever
performed on them).
-/

/-- `GamsDataType(Enum)`: Set/Parameter/Variable/Equation/Alias. -/
inductive GamsDataType
  | Set
  | Parameter
  | Variable
  | Equation
  | Alias
deriving DecidableEq, Repr

/-- `GamsDataType(value)` on a gdxcc data-type code (`GMS_DT_SET = 0`,
`GMS_DT_PAR = 1`, `GMS_DT_VAR = 2`, `GMS_DT_EQU = 3`, `GMS_DT_ALIAS = 4`);
an unrecognized code raises `ValueError` in Python, here `none`. -/
def GamsDataType.ofCode : Nat → Option GamsDataType
  | 0 => some .Set
  | 1 => some .Parameter
  | 2 => some .Variable
  | 3 => some .Equation
  | 4 => some .Alias
  | _ => none

/-- `GamsVariableType(Enum)`, codes `GMS_VARTYPE_UNKNOWN = 0` .. `SEMIINT = 9`. -/
inductive GamsVariableType
  | Unknown
  | Binary
  | Integer
  | Positive
  | Negative
  | Free
  | SOS1
  | SOS2
  | Semicont
  | Semiint
deriving DecidableEq, Repr

def GamsVariableType.ofCode : Nat → Option GamsVariableType
  | 0 => some .Unknown
  | 1 => some .Binary
  | 2 => some .Integer
  | 3 => some .Positive
  | 4 => some .Negative
  | 5 => some .Free
  | 6 => some .SOS1
  | 7 => some .SOS2
  | 8 => some .Semicont
  | 9 => some .Semiint
  | _ => none

/-- Python values that flow through the modelled code: strings (dimension
labels, column names), numbers (channel payloads), booleans (the Set
"defined" marker), `None`, and `GamsVariableType` enum members. -/
inductive PyObj
  | pstr (s : String)
  | pint (n : Int)
  | pbool (b : Bool)
  | pnone
  | pvartype (v : GamsVariableType)
deriving DecidableEq, Repr

def PyObj.isStr : PyObj → Bool
  | .pstr _ => true
  | _ => false

def PyObj.toStr : PyObj → String
  | .pstr s => s
  | _ => ""

/-- The exception kinds the modelled code can raise.  `stateError` stands for
the `gdxpds.Error` base class, `gdxError` for `GdxError`; the remaining kinds
are Python builtins the source can hit. -/
inductive PyError
  | stateError (msg : String)
  | gdxError (msg : String)
  | valueError (msg : String)
  | nameError (msg : String)
  | attributeError (msg : String)
  | assertionError (msg : String)
deriving DecidableEq, Repr

/-- A `pandas.DataFrame`, reduced to what the source observes: an ordered
column-label list and row-major data. -/
structure DataFrame where
  columns : List PyObj
  rows : List (List PyObj)
deriving DecidableEq, Repr

/-- Result of one stateful method call: the post-state (including mutations
made before an exception was raised), the `logger.warn` messages emitted, and
the exception if one escaped. -/
structure StepResult (σ : Type) where
  state : σ
  warnings : List String
  error : Option PyError
deriving DecidableEq, Repr

/-- `GAMS_VALUE_COLS_MAP`: Variable and Equation carry the five channels
(Level, Marginal, Lower, Upper, Scale) with their `GamsValueType` codes; every
other kind defaults to the single `Value` channel at the Level slot. -/
def GAMS_VALUE_COLS_MAP (dt : GamsDataType) : List (String × Nat) :=
  match dt with
  | .Variable => [("Level", 0), ("Marginal", 1), ("Lower", 2), ("Upper", 3), ("Scale", 4)]
  | .Equation => [("Level", 0), ("Marginal", 1), ("Lower", 2), ("Upper", 3), ("Scale", 4)]
  | _ => [("Value", 0)]

/-- In-memory state of a `GdxSymbol`.  `hasFile` models whether `_file` is a
(non-`None`) container back-reference; `num_records_meta` is `_num_records`,
the metadata-only count used while `loaded` is false. -/
structure GdxSymbol where
  name : String
  description : String
  loaded : Bool
  data_type : GamsDataType
  variable_type : Option GamsVariableType
  dims : List String
  dataframe : DataFrame
  num_records_meta : Nat
  hasFile : Bool
  index : Option Nat
deriving DecidableEq, Repr

def GdxSymbol.value_cols (s : GdxSymbol) : List (String × Nat) :=
  GAMS_VALUE_COLS_MAP s.data_type

def GdxSymbol.value_col_names (s : GdxSymbol) : List String :=
  s.value_cols.map Prod.fst

def GdxSymbol.num_dims (s : GdxSymbol) : Nat := s.dims.length

def GdxSymbol.num_records (s : GdxSymbol) : Nat :=
  if s.loaded then s.dataframe.rows.length else s.num_records_meta

/-- The column labels `self.dims + self.value_col_names` as pandas sees them. -/
def colNames (s : GdxSymbol) : List PyObj :=
  (s.dims ++ s.value_col_names).map PyObj.pstr

/-- `_init_dataframe`: replace the table with an empty one labelled
`dims + value_col_names`. -/
def GdxSymbol.initDataframe (s : GdxSymbol) : GdxSymbol :=
  { s with dataframe := ⟨colNames s, []⟩ }

/-- `GamsVariableType(value)` as called inside the `variable_type` setter's
`try`: succeeds on an enum member or a valid integer code, anything else
(strings, `None`, booleans) raises and is seen as invalid. -/
def coerceVariableType : PyObj → Option GamsVariableType
  | .pvartype v => some v
  | .pint n => if n < 0 then none else GamsVariableType.ofCode n.toNat
  | _ => none

/-- The `variable_type` setter.  For Variable symbols an invalid request is
ignored when a valid subtype is already stored and otherwise degrades to
`Free`; for non-Variable symbols the stored subtype is forced to `None`, with
a warning when the requested value was not `None`.  The setter never raises. -/
def GdxSymbol.setVariableType (s : GdxSymbol) (value : PyObj) :
    GdxSymbol × List String :=
  if s.data_type = GamsDataType.Variable then
    match coerceVariableType value with
    | some vt => ({ s with variable_type := some vt }, [])
    | none =>
      match s.variable_type with
      | some _ => (s, [])
      | none => ({ s with variable_type := some GamsVariableType.Free }, [])
  else
    if value = PyObj.pnone then ({ s with variable_type := none }, [])
    else ({ s with variable_type := none },
          ["GdxSymbol is not a Variable, so setting variable_type to None"])

/-- The Python value handed to the `dims` setter: an `int`, a `list`, or any
other object (e.g. the pandas `Index` the `dataframe` setter passes). -/
inductive DimsValue
  | ofInt (n : Nat)
  | ofList (l : List PyObj)
  | ofOther
deriving DecidableEq, Repr

/-- `not isinstance(value, list) or len(value) != self.num_dims`: the guard of
the warning the `dims` setter emits when data already exists. -/
def DimsValue.warnMismatch (value : DimsValue) (nd : Nat) : Bool :=
  match value with
  | .ofList l => l.length != nd
  | .ofInt _ => true
  | .ofOther => true

/-- The `dims` setter, translated branch by branch from the source: warn when
data already exists and the request is not a same-length list; an `int`
produces that many anonymous labels and re-initializes (empties) the table; a
list must be all strings, and with existing data the column relabelling
raises `ValueError` on a length mismatch (pandas), after `_dims` was already
replaced. -/
def GdxSymbol.setDims (s : GdxSymbol) (value : DimsValue) : StepResult GdxSymbol :=
  let w0 : List String :=
    if s.loaded = true ∧ s.num_records > 0 ∧ value.warnMismatch s.num_dims = true then
      ["Cannot set dims because dataframe with existing dims already contains data"]
    else []
  match value with
  | .ofInt n =>
      ⟨({ s with dims := List.replicate n "*" }).initDataframe, w0, none⟩
  | .ofOther =>
      ⟨s, w0, some (.stateError "dims must be an int or a list")⟩
  | .ofList l =>
      if l.any (fun d => !d.isStr) then
        ⟨s, w0, some (.stateError "Individual dimensions must be denoted by strings")⟩
      else
        let w1 :=
          if s.num_dims > 0 ∧ s.num_dims ≠ l.length then
            w0 ++ ["number of dimensions is changing"]
          else w0
        let s1 := { s with dims := l.map PyObj.toStr }
        if s1.loaded = true ∧ s1.num_records > 0 then
          if s1.dataframe.columns.length = (s1.dims ++ s1.value_col_names).length then
            ⟨{ s1 with dataframe := { s1.dataframe with columns := colNames s1 } }, w1, none⟩
          else
            ⟨s1, w1, some (.valueError "Length mismatch between columns passed and new labels")⟩
        else
          ⟨s1.initDataframe, w1, none⟩

/-- `pds.DataFrame(data, columns=cols)` on a list of row-lists: raises
`ValueError` when some row's length differs from the column count. -/
def mkDataFrame (data : List (List PyObj)) (cols : List PyObj) :
    Except PyError DataFrame :=
  if data.all (fun r => r.length = cols.length) then .ok ⟨cols, data⟩
  else .error (.valueError "columns passed and passed data disagree")

/-- `Python list slice l[:n]` for a possibly negative bound. -/
def pySlice (l : List PyObj) (n : Int) : List PyObj :=
  if n ≥ 0 then l.take n.toNat else l.take (l.length - (-n).toNat)

/-- Input to the `dataframe` setter: a `pandas.DataFrame` instance or any
other data (the row-list case). -/
inductive DataframeArg
  | frame (d : DataFrame)
  | rows (data : List (List PyObj))
deriving DecidableEq, Repr

/-- The `dataframe` setter.  The row-list branch builds a fresh frame labelled
`dims + value_col_names`.  The `DataFrame` branch recomputes the dimension
columns; note that in the source this branch can never complete: when the
leading columns are all strings it assigns the pandas `Index` slice to
`self.dims`, which the `dims` setter rejects, and otherwise it reaches
`copy.deepcopy` although the `copy` module is never imported (`NameError`). -/
def GdxSymbol.setDataframe (s : GdxSymbol) (arg : DataframeArg) : StepResult GdxSymbol :=
  match arg with
  | .rows data =>
      match mkDataFrame data (colNames s) with
      | .error e => ⟨s, [], some e⟩
      | .ok df => ⟨{ s with dataframe := df }, [], none⟩
  | .frame d =>
      let numDims : Int := (d.columns.length : Int) - (s.value_cols.length : Int)
      let dimCols : List PyObj := pySlice d.columns numDims
      if dimCols.all PyObj.isStr then
        let r := s.setDims DimsValue.ofOther
        ⟨r.state, r.warnings, r.error⟩
      else
        if numDims ≠ (s.num_dims : Int) then
          let r := s.setDims (DimsValue.ofInt numDims.toNat)
          ⟨r.state, r.warnings, some (.nameError "name copy is not defined")⟩
        else
          ⟨s, [], some (.nameError "name copy is not defined")⟩

/-- The `data_type` setter: rejected unless the symbol is loaded with zero
records; otherwise replaces the kind, pushes `None` through the
`variable_type` setter, and re-initializes the (empty) table. -/
def GdxSymbol.setDataType (s : GdxSymbol) (code : Nat) : StepResult GdxSymbol :=
  if s.loaded = false ∨ s.num_records > 0 then
    ⟨s, [], some (.stateError "Cannot change the data_type of a GdxSymbol that is yet to be read or contains records")⟩
  else
    match GamsDataType.ofCode code with
    | none => ⟨s, [], some (.valueError "is not a valid GamsDataType")⟩
    | some dt =>
      let s1 := { s with data_type := dt }
      let p := s1.setVariableType PyObj.pnone
      ⟨p.1.initDataframe, p.2, none⟩

/-- One record streamed by `gdxDataReadStr`: the domain-element strings and
the five-slot channel value array. -/
structure RawRecord where
  elements : List String
  values : List Int
deriving DecidableEq, Repr

/-- The external gdxcc session, abstracted as the data each call would
return.  `symbolInfo i = none` models `gdxSymbolInfo` returning `ret != 1`,
and similarly for the other metadata calls; `symbolRecords i` is the record
stream `gdxDataReadStrStart`/`gdxDataReadStr` produce for symbol `i`. -/
structure SessionData where
  openReadOk : Bool
  fileVersionRet : Nat
  fileVersion : String
  fileProducer : String
  symbolCount : Nat
  elementCount : Nat
  symbolInfo : Nat → Option (String × Nat × Nat)
  symbolInfoX : Nat → Option (Nat × Nat × String)
  symbolDomain : Nat → Option (List String)
  symbolRecords : Nat → List RawRecord
  gdx2pyAvailable : Bool
  par2list : String → List (List PyObj)
  openWriteOk : Bool

/-- The file-independent part of `GdxSymbol.__init__`: convert the data-type
code, push the requested subtype through the `variable_type` setter, and run
the `dims` setter (which builds the empty table).  A raise inside `__init__`
discards the object, hence `Except`. -/
def GdxSymbol.initCore (name : String) (dtCode : Nat) (dimsArg : DimsValue)
    (description : String) (varTypeArg : PyObj) :
    Except PyError (GdxSymbol × List String) :=
  match GamsDataType.ofCode dtCode with
  | none => .error (.valueError "is not a valid GamsDataType")
  | some dt =>
    let s0 : GdxSymbol :=
      { name := name, description := description, loaded := false, data_type := dt,
        variable_type := none, dims := [], dataframe := ⟨[], []⟩,
        num_records_meta := 0, hasFile := false, index := none }
    let p := s0.setVariableType varTypeArg
    let r := p.1.setDims dimsArg
    match r.error with
    | some e => .error e
    | none => .ok (r.state, p.2 ++ r.warnings)

/-- `GdxSymbol(name, data_type, dims, description, variable_type)` with
`file=None`: a freestanding symbol, immediately marked loaded with an empty
table. -/
def GdxSymbol.make (name : String) (dtCode : Nat) (dimsArg : DimsValue)
    (description : String) (varTypeArg : PyObj) :
    Except PyError (GdxSymbol × List String) :=
  match GdxSymbol.initCore name dtCode dimsArg description varTypeArg with
  | .error e => .error e
  | .ok (s, w) => .ok ({ s with loaded := true }, w)

/-- `GdxSymbol(name, data_type, dims, file=f, index=i)`: the bound
constructor, which additionally pulls extended metadata (`gdxSymbolInfoX`),
the variable subtype for Variables (`GamsVariableType(userinfo)`, uncaught on
an invalid code), and for `index > 0` the domain labels
(`gdxSymbolGetDomainX`, with the dimensionality consistency `assert`). -/
def GdxSymbol.construct (sess : SessionData) (name : String) (dtCode : Nat)
    (dimCount : Nat) (index : Nat) : Except PyError (GdxSymbol × List String) :=
  match GdxSymbol.initCore name dtCode (DimsValue.ofInt dimCount) "" PyObj.pnone with
  | .error e => .error e
  | .ok (s, w) =>
    let s := { s with hasFile := true, index := some index }
    match sess.symbolInfoX index with
    | none => .error (.gdxError "Unable to get extended symbol information")
    | some (records, userinfo, descr) =>
      let s := { s with num_records_meta := records }
      let step : Except PyError (GdxSymbol × List String) :=
        if s.data_type = GamsDataType.Variable then
          match GamsVariableType.ofCode userinfo with
          | none => .error (.valueError "is not a valid GamsVariableType")
          | some vt => .ok (s.setVariableType (PyObj.pvartype vt))
        else .ok (s, [])
      match step with
      | .error e => .error e
      | .ok (s2, w2) =>
        let s3 := { s2 with description := descr }
        if index > 0 then
          match sess.symbolDomain index with
          | none => .error (.gdxError "Unable to get domain information")
          | some dom =>
            if dom.length ≠ s3.dims.length then
              .error (.assertionError "Dimensional information read in from GDX should be consistent")
            else
              let r := s3.setDims (DimsValue.ofList (dom.map PyObj.pstr))
              match r.error with
              | some e => .error e
              | none => .ok (r.state, (w ++ w2) ++ r.warnings)
        else .ok (s3, w ++ w2)

/-- Replace the last entry of a list. -/
def setLast (l : List PyObj) (v : PyObj) : List PyObj :=
  match l with
  | [] => []
  | [_] => [v]
  | x :: y :: rest => x :: setLast (y :: rest) v

/-- One loaded row: `elements + [values[col_ind] for ...]`, with the trailing
value overwritten by `True` for Set symbols (`data[-1][-1] = True`). -/
def GdxSymbol.buildRow (s : GdxSymbol) (r : RawRecord) : List PyObj :=
  let row := r.elements.map PyObj.pstr ++
    s.value_cols.map (fun c => PyObj.pint (r.values.getD c.2 0))
  if s.data_type = GamsDataType.Set then setLast row (PyObj.pbool true) else row

/-- `GdxSymbol.load`: no-op when already loaded; raises on `not self.file`,
which is true both when `_file` is `None` and — by Python truthiness through
`GdxFile.__len__` — when the referenced container currently holds no symbols
(`fileLen` is that container's symbol count at call time); raises on
`not self.index` (which, by truthiness, also rejects index 0); a Parameter
takes the gdx2py shortcut when that module imported; otherwise streams the
session's records, builds the rows, and replaces the table via the
`dataframe` setter before marking the symbol loaded. -/
def GdxSymbol.load (s : GdxSymbol) (fileLen : Nat) (sess : SessionData) :
    StepResult GdxSymbol :=
  if s.loaded then ⟨s, [], none⟩
  else if s.hasFile = false ∨ fileLen = 0 then
    ⟨s, [], some (.stateError "Cannot load because there is no file pointer")⟩
  else
    match s.index with
    | none => ⟨s, [], some (.stateError "Cannot load because there is no symbol index")⟩
    | some 0 => ⟨s, [], some (.stateError "Cannot load because there is no symbol index")⟩
    | some (i + 1) =>
      if s.data_type = GamsDataType.Parameter ∧ sess.gdx2pyAvailable = true then
        let r := s.setDataframe (DataframeArg.rows (sess.par2list s.name))
        match r.error with
        | some e => ⟨r.state, r.warnings, some e⟩
        | none => ⟨{ r.state with loaded := true }, r.warnings, none⟩
      else
        let data := (sess.symbolRecords (i + 1)).map s.buildRow
        let r := s.setDataframe (DataframeArg.rows data)
        match r.error with
        | some e => ⟨r.state, r.warnings, some e⟩
        | none => ⟨{ r.state with loaded := true }, r.warnings, none⟩

/-- One observable effect `GdxFile.write` pushes through the session. -/
inductive WriteEvent
  | openWrite (filename : String) (producer : String)
  | record (symbolName : String) (row : List PyObj)
  | close
deriving DecidableEq, Repr

/-- Modelled from the spec: the body of `GdxSymbol.write` is left unfinished
in the source (only the `# HERE` comment).  Per the spec it requires the
symbol be loaded and streams every table row back through the session in
order, emitting domain values followed by channel values. -/
def GdxSymbol.writeSym (s : GdxSymbol) : Except PyError (List WriteEvent) :=
  if s.loaded then
    .ok (s.dataframe.rows.map (fun r => WriteEvent.record s.name r))
  else .error (.stateError "Symbol must be loaded before it can be written")

/-- In-memory state of a `GdxFile`.  `symbols` is the `OrderedDict`
`_symbols`: an insertion-ordered association list from name key to symbol.
The gdxcc handle itself is part of the external session and not state. -/
structure GdxFile where
  lazy_load : Bool
  version : Option String
  producer : Option String
  filename : Option String
  universal_set : Option GdxSymbol
  symbols : List (String × GdxSymbol)
deriving DecidableEq, Repr

/-- Iterating the container (`for symbol in self`) yields the stored symbols
in key order. -/
def GdxFile.symbolList (f : GdxFile) : List GdxSymbol := f.symbols.map Prod.snd

def GdxFile.keys (f : GdxFile) : List String := f.symbols.map Prod.fst

/-- `d[k] = v` on an ordered dict: update in place when the key exists
(keeping its position), otherwise append. -/
def odSet (d : List (String × GdxSymbol)) (k : String) (v : GdxSymbol) :
    List (String × GdxSymbol) :=
  if d.any (fun p => p.1 = k) then
    d.map (fun p => if p.1 = k then (k, v) else p)
  else d ++ [(k, v)]

/-- `OrderedDict(pairs)`: duplicate keys collapse, keeping the first
occurrence's position and the last occurrence's value. -/
def odFromList (l : List (String × GdxSymbol)) : List (String × GdxSymbol) :=
  l.foldl (fun acc p => odSet acc p.1 p.2) []

/-- `list.insert(k, x)` (the key was already range-checked). -/
def listInsert (k : Nat) (x : α) : List α → List α
  | [] => [x]
  | y :: ys =>
    match k with
    | 0 => x :: y :: ys
    | k' + 1 => y :: listInsert k' x ys

/-- `_fixup_name_keys` iterates `self._symbols` — the dict KEYS — and unpacks
each key string into `cur_key, symbol`, so on a non-empty dict it always
raises: `ValueError` when the first key's length is not 2, otherwise
`AttributeError` when `symbol.name` is taken on a character. -/
def fixupNameKeys (d : List (String × GdxSymbol)) :
    Except PyError (List (String × GdxSymbol)) :=
  match d with
  | [] => .ok []
  | (k, _) :: _ =>
    if k.length = 2 then .error (.attributeError "str object has no attribute name")
    else .error (.valueError "not enough values to unpack")

/-- `_check_insert_setitem`'s key range check (`key > len(self)` is an
error); the type checks on the value and key are enforced by the embedding's
types. -/
def GdxFile.checkKey (f : GdxFile) (key : Nat) : Option PyError :=
  if key > f.symbols.length then some (.stateError "Invalid key") else none

/-- `GdxFile.__setitem__(key, value)`: replacement at `key < len` stores the
new symbol under the OLD name key and then calls `_fixup_name_keys` (which
raises, see above); `key == len` appends through the name-keyed dict, so a
duplicate name silently overwrites the existing entry. -/
def GdxFile.setItem (f : GdxFile) (key : Nat) (v : GdxSymbol) : StepResult GdxFile :=
  match f.checkKey key with
  | some e => ⟨f, [], some e⟩
  | none =>
    let v := { v with hasFile := true }
    if h : key < f.symbols.length then
      let nameKey := (f.symbols.get ⟨key, h⟩).1
      let f1 := { f with symbols := odSet f.symbols nameKey v }
      match fixupNameKeys f1.symbols with
      | .error e => ⟨f1, [], some e⟩
      | .ok d => ⟨{ f1 with symbols := d }, [], none⟩
    else
      ⟨{ f with symbols := odSet f.symbols v.name v }, [], none⟩

/-- `GdxFile.insert(key, value)`: rebuild the dict from the live
`(symbol.name, symbol)` pairs with the new pair spliced in; duplicate names
collapse silently in `OrderedDict(data)`. -/
def GdxFile.insertSym (f : GdxFile) (key : Nat) (v : GdxSymbol) : StepResult GdxFile :=
  match f.checkKey key with
  | some e => ⟨f, [], some e⟩
  | none =>
    let v := { v with hasFile := true }
    let data := f.symbolList.map (fun s => (s.name, s))
    ⟨{ f with symbols := odFromList (listInsert key (v.name, v) data) }, [], none⟩

/-- `MutableSequence.append` = `insert(len(self), value)`. -/
def GdxFile.appendSym (f : GdxFile) (v : GdxSymbol) : StepResult GdxFile :=
  f.insertSym f.symbols.length v

/-- `GdxFile.__delitem__` with an integer key. -/
def GdxFile.delItem (f : GdxFile) (key : Nat) : StepResult GdxFile :=
  if h : key < f.symbols.length then
    let nameKey := (f.symbols.get ⟨key, h⟩).1
    ⟨{ f with symbols := f.symbols.filter (fun p => p.1 ≠ nameKey) }, [], none⟩
  else ⟨f, [], some (.stateError "list index out of range")⟩

/-- The symbol-enumeration loop of `GdxFile.read`: for `remaining` more
indices starting at `idx`, fetch `gdxSymbolInfo`, construct the bound symbol,
and append it; the first failure stops the loop with the partially populated
container. -/
def GdxFile.readLoop (sess : SessionData) :
    Nat → Nat → GdxFile → List String → StepResult GdxFile
  | _, 0, f, ws => ⟨f, ws, none⟩
  | idx, r + 1, f, ws =>
    match sess.symbolInfo idx with
    | none => ⟨f, ws, some (.gdxError "Could not get symbol info for symbol")⟩
    | some (name, dims, dt) =>
      match GdxSymbol.construct sess name dt dims idx with
      | .error e => ⟨f, ws, some e⟩
      | .ok (sym, w) =>
        GdxFile.readLoop sess (idx + 1) r (f.appendSym sym).state (ws ++ w)

/-- The eager-load loop `for symbol in self: symbol.load()`, mutating each
stored symbol in place and stopping at the first failure. -/
def loadSymbols (sess : SessionData) (fileLen : Nat) :
    List (String × GdxSymbol) → StepResult (List (String × GdxSymbol))
  | [] => ⟨[], [], none⟩
  | (k, s) :: rest =>
    let r := GdxSymbol.load s fileLen sess
    match r.error with
    | some e => ⟨(k, r.state) :: rest, r.warnings, some e⟩
    | none =>
      let r2 := loadSymbols sess fileLen rest
      ⟨(k, r.state) :: r2.state, r.warnings ++ r2.warnings, r2.error⟩

/-- `GdxFile.read(filename)`: refuse when not empty; open; then — in source
order — bind `_filename`, assign version and producer from the
`gdxFileVersion` tuple (before the return code is checked; note the failure
branch raises the misspelled name `GDXError`, a `NameError`), build the
universal set, enumerate and append the remaining symbols, and eagerly load
them unless `lazy_load`.  Mutations made before a failure stay visible. -/
def GdxFile.read (f : GdxFile) (sess : SessionData) (fn : String) : StepResult GdxFile :=
  if f.symbols.length ≠ 0 then
    ⟨f, [], some (.stateError "GdxFile.read can only be used if the GdxFile is .empty")⟩
  else if sess.openReadOk = false then
    ⟨f, [], some (.gdxError "Could not open file")⟩
  else
    let f1 := { f with filename := some fn, version := some sess.fileVersion,
                       producer := some sess.fileProducer }
    if sess.fileVersionRet ≠ 1 then
      ⟨f1, [], some (.nameError "name GDXError is not defined")⟩
    else
      match sess.symbolInfo 0 with
      | none => ⟨f1, [], some (.gdxError "Could not get symbol info for the universal set")⟩
      | some (name, dims, dt) =>
        match GdxSymbol.construct sess name dt dims 0 with
        | .error e => ⟨f1, [], some e⟩
        | .ok (us, w0) =>
          let f2 := { f1 with universal_set := some us }
          let r := GdxFile.readLoop sess 1 sess.symbolCount f2 w0
          match r.error with
          | some _ => r
          | none =>
            if f.lazy_load then r
            else
              let rl := loadSymbols sess r.state.symbols.length r.state.symbols
              ⟨{ r.state with symbols := rl.state }, r.warnings ++ rl.warnings, rl.error⟩

/-- Result of `GdxFile.write`: post-state, the session effects emitted, and
the exception if one escaped. -/
structure WriteResult where
  state : GdxFile
  events : List WriteEvent
  error : Option PyError
deriving DecidableEq, Repr

/-- `for symbol in self: symbol.write()`, collecting session effects and
stopping at the first failure. -/
def writeSymbolsLoop : List GdxSymbol → Except (List WriteEvent × PyError) (List WriteEvent)
  | [] => .ok []
  | s :: rest =>
    match s.writeSym with
    | .error e => .error ([], e)
    | .ok evs =>
      match writeSymbolsLoop rest with
      | .error (evs2, e) => .error (evs ++ evs2, e)
      | .ok evs2 => .ok (evs ++ evs2)

/-- `GdxFile.write(filename)`: first check every contained symbol is loaded
(before any session call), then open for writing with producer "gdxpds",
bind `_filename`, write the universal set, write each contained symbol in
container order, and close. -/
def GdxFile.write (f : GdxFile) (sess : SessionData) (fn : String) : WriteResult :=
  if f.symbolList.any (fun s => !s.loaded) then
    ⟨f, [], some (.stateError "All symbols must be loaded before this file can be written")⟩
  else if sess.openWriteOk = false then
    ⟨f, [], some (.gdxError "Could not open for writing")⟩
  else
    let f1 := { f with filename := some fn }
    let ev0 := [WriteEvent.openWrite fn "gdxpds"]
    match f1.universal_set with
    | none => ⟨f1, ev0, some (.attributeError "NoneType object has no attribute write")⟩
    | some us =>
      match us.writeSym with
      | .error e => ⟨f1, ev0, some e⟩
      | .ok evUS =>
        match writeSymbolsLoop f1.symbolList with
        | .error (evs, e) => ⟨f1, ev0 ++ evUS ++ evs, some e⟩
        | .ok evs => ⟨f1, ev0 ++ evUS ++ evs ++ [WriteEvent.close], none⟩

/-! Concrete fixtures used by witnesses and counterexamples. -/

/-- A freestanding, loaded, 1-dimensional Parameter holding one record. -/
def sampleParam : GdxSymbol :=
  { name := "p", description := "", loaded := true, data_type := GamsDataType.Parameter,
    variable_type := none, dims := ["i"],
    dataframe := ⟨[PyObj.pstr "i", PyObj.pstr "Value"], [[PyObj.pstr "x", PyObj.pint 5]]⟩,
    num_records_meta := 0, hasFile := false, index := none }

/-- A freestanding, loaded, 0-dimensional Parameter with no records. -/
def emptyParam : GdxSymbol :=
  { name := "q", description := "", loaded := true, data_type := GamsDataType.Parameter,
    variable_type := none, dims := [],
    dataframe := ⟨[PyObj.pstr "Value"], []⟩,
    num_records_meta := 0, hasFile := false, index := none }

/-- A freestanding, loaded Variable whose stored subtype is Binary. -/
def binaryVar : GdxSymbol :=
  { name := "v", description := "", loaded := true, data_type := GamsDataType.Variable,
    variable_type := some GamsVariableType.Binary, dims := [],
    dataframe := ⟨[PyObj.pstr "Level", PyObj.pstr "Marginal", PyObj.pstr "Lower",
                   PyObj.pstr "Upper", PyObj.pstr "Scale"], []⟩,
    num_records_meta := 0, hasFile := false, index := none }

/-- A bound, unloaded, 1-dimensional Set symbol at container position 1. -/
def boundSet : GdxSymbol :=
  { name := "s", description := "", loaded := false, data_type := GamsDataType.Set,
    variable_type := none, dims := ["i"],
    dataframe := ⟨[PyObj.pstr "i", PyObj.pstr "Value"], []⟩,
    num_records_meta := 2, hasFile := true, index := some 1 }

/-- A bound, unloaded universal-set symbol at container position 0. -/
def boundUniv : GdxSymbol :=
  { name := "*", description := "", loaded := false, data_type := GamsDataType.Set,
    variable_type := none, dims := [],
    dataframe := ⟨[PyObj.pstr "Value"], []⟩,
    num_records_meta := 0, hasFile := true, index := some 0 }

/-- A fresh, empty container (lazy loading). -/
def emptyFile : GdxFile :=
  { lazy_load := true, version := none, producer := none, filename := none,
    universal_set := none, symbols := [] }

/-- A session whose metadata is readable for the universal set and symbol 1
but whose `gdxSymbolInfo` fails at index 2: reading stops mid-enumeration. -/
def sessPartial : SessionData :=
  { openReadOk := true, fileVersionRet := 1, fileVersion := "V7", fileProducer := "GAMS",
    symbolCount := 2, elementCount := 0,
    symbolInfo := fun i =>
      match i with
      | 0 => some ("*", 0, 0)
      | 1 => some ("a", 1, 1)
      | _ => none,
    symbolInfoX := fun i =>
      match i with
      | 0 => some (0, 0, "")
      | 1 => some (0, 0, "first symbol")
      | _ => none,
    symbolDomain := fun i => match i with | 1 => some ["i"] | _ => none,
    symbolRecords := fun _ => [],
    gdx2pyAvailable := false, par2list := fun _ => [], openWriteOk := true }

/-- A session with two Set records for symbol 1 whose streamed channel
payloads are the (nonzero) numbers 7 and 9. -/
def sessSetRecords : SessionData :=
  { sessPartial with
    symbolRecords := fun i =>
      match i with
      | 1 => [⟨["x"], [7, 0, 0, 0, 0]⟩, ⟨["y"], [9, 0, 0, 0, 0]⟩]
      | _ => [] }

/-- A loaded universal-set symbol with one row, for the write fixtures. -/
def loadedUniv : GdxSymbol :=
  { boundUniv with
    loaded := true,
    dataframe := ⟨[PyObj.pstr "Value"], [[PyObj.pbool true]]⟩ }

/-- A container holding one loaded symbol and one loaded universal set. -/
def writeReadyFile : GdxFile :=
  { lazy_load := true, version := some "V7", producer := some "GAMS",
    filename := some "in.gdx", universal_set := some loadedUniv,
    symbols := [("p", sampleParam)] }

/-- `writeReadyFile` with the contained symbol replaced by an unloaded one. -/
def unloadedFile : GdxFile :=
  { writeReadyFile with symbols := [("s", boundSet)] }

/-- A container in the state a lazy `read` leaves it: its universal set and
its one symbol are both not yet loaded. -/
def lazyFile : GdxFile :=
  { writeReadyFile with universal_set := some boundUniv, symbols := [("s", boundSet)] }

/-- A session that cannot be opened for writing. -/
def sessNoWrite : SessionData :=
  { sessPartial with openWriteOk := false }

/-- A container holding the single symbol `sampleParam` under its name. -/
def oneSymbolFile : GdxFile :=
  { emptyFile with symbols := [("p", sampleParam)] }

/-- A second freestanding symbol that reuses the name `p`. -/
def sampleParamClone : GdxSymbol :=
  { sampleParam with description := "duplicate name", dataframe := ⟨[PyObj.pstr "Value"], []⟩, dims := [] }

/-! Helper lemmas. -/

/-- A successful `load` leaves the symbol marked loaded (whichever branch ran). -/
theorem load_success_loaded (s : GdxSymbol) (fileLen : Nat) (sess : SessionData)
    (h : (GdxSymbol.load s fileLen sess).error = none) :
    (GdxSymbol.load s fileLen sess).state.loaded = true := by
  unfold GdxSymbol.load at *
  by_cases hl : s.loaded = true
  · simp [hl]
  · simp only [Bool.not_eq_true] at hl
    simp only [hl] at *
    by_cases hf : (s.hasFile = false ∨ fileLen = 0)
    · simp [hf] at h
    · simp only [if_neg hf] at *
      rcases hi : s.index with _ | n
      · simp [hi] at h
      · cases n with
        | zero => simp [hi] at h
        | succ i =>
          simp only [hi] at *
          by_cases hp : s.data_type = GamsDataType.Parameter ∧ sess.gdx2pyAvailable = true
          · simp only [if_pos hp] at *
            rcases hr : (s.setDataframe (DataframeArg.rows (sess.par2list s.name))).error with _ | e
            · simp [hr]
            · simp [hr] at h
          · simp only [if_neg hp] at *
            rcases hr : (s.setDataframe (DataframeArg.rows
                ((sess.symbolRecords (i + 1)).map s.buildRow))).error with _ | e
            · simp [hr]
            · simp [hr] at h

/-- A symbol already marked loaded makes `load` an unconditional no-op. -/
theorem load_of_loaded (s : GdxSymbol) (fileLen : Nat) (sess : SessionData)
    (h : s.loaded = true) :
    GdxSymbol.load s fileLen sess = ⟨s, [], none⟩ := by
  unfold GdxSymbol.load
  simp [h]

/-- C9: load is idempotent — once a call to load has succeeded, any further
load call, against ANY session and whatever the back-referenced container
then holds, is a no-op: it returns the state unchanged (identical table),
logs nothing, raises nothing, and — being independent of the session
argument — queries the session in no way. -/
theorem C9_load_idempotent (s : GdxSymbol) (fl fl2 : Nat) (sess sess2 : SessionData)
    (h : (GdxSymbol.load s fl sess).error = none) :
    GdxSymbol.load (GdxSymbol.load s fl sess).state fl2 sess2 =
      ⟨(GdxSymbol.load s fl sess).state, [], none⟩ :=
  load_of_loaded _ fl2 sess2 (load_success_loaded s fl sess h)

theorem C9_witness :
    GdxSymbol.load (GdxSymbol.load boundSet 1 sessSetRecords).state 0 sessPartial =
      ⟨(GdxSymbol.load boundSet 1 sessSetRecords).state, [], none⟩ :=
  C9_load_idempotent boundSet 1 0 sessSetRecords sessPartial (by decide)

/-- The row-list branch of the `dataframe` setter either succeeds or raises
pandas' column-count `ValueError`. -/
theorem setDataframe_rows_error (s : GdxSymbol) (data : List (List PyObj)) :
    (s.setDataframe (DataframeArg.rows data)).error = none ∨
    (s.setDataframe (DataframeArg.rows data)).error =
      some (.valueError "columns passed and passed data disagree") := by
  simp only [GdxSymbol.setDataframe, mkDataFrame]
  split
  · rename_i e heq
    split at heq
    · simp at heq
    · simp at heq
      simp_all
  · simp

/-- For an unloaded symbol bound at a positive index through a currently
non-empty container, `load` either succeeds or fails with the pandas
`ValueError` — never with a precondition error. -/
theorem load_bound_error (s : GdxSymbol) (fileLen : Nat) (sess : SessionData) (i : Nat)
    (h : s.loaded = false) (hf : s.hasFile = true) (hfl : fileLen ≠ 0)
    (hi : s.index = some (i + 1)) :
    (GdxSymbol.load s fileLen sess).error = none ∨
    (GdxSymbol.load s fileLen sess).error =
      some (.valueError "columns passed and passed data disagree") := by
  unfold GdxSymbol.load
  have hcond : ¬ (s.hasFile = false ∨ fileLen = 0) := by simp [hf, hfl]
  simp only [h, if_neg hcond, hi]
  by_cases hp : s.data_type = GamsDataType.Parameter ∧ sess.gdx2pyAvailable = true
  · simp only [if_pos hp]
    rcases setDataframe_rows_error s (sess.par2list s.name) with h1 | h1 <;>
      simp [h1]
  · simp only [if_neg hp]
    rcases setDataframe_rows_error s ((sess.symbolRecords (i + 1)).map s.buildRow) with h1 | h1 <;>
      simp [h1]

/-- The two exceptions load's entry preconditions can raise. -/
def loadPrecondError (e : Option PyError) : Prop :=
  e = some (.stateError "Cannot load because there is no file pointer") ∨
  e = some (.stateError "Cannot load because there is no symbol index")

instance (e : Option PyError) : Decidable (loadPrecondError e) := by
  unfold loadPrecondError; infer_instance

/-- C7 (amended): for a not-yet-loaded symbol, load() raises its precondition
error exactly when `not self.file` — the symbol is unbound, or the referenced
container currently holds no symbols (Python truthiness through
`GdxFile.__len__`) — or `not self.index` — the index is missing or 0; in all
those cases the state is untouched.  A bound symbol at a position ≥ 1 whose
container is non-empty is never rejected by the precondition checks and
proceeds to stream records.  (The claim as frozen says position 0 is valid
and that only unbound/positionless symbols fail; the counterexample rejects
the universal set at position 0 and a position-1 symbol whose container was
emptied.) -/
theorem C7_amended (s : GdxSymbol) (fileLen : Nat) (sess : SessionData)
    (h : s.loaded = false) :
    (loadPrecondError (GdxSymbol.load s fileLen sess).error ↔
        (s.hasFile = false ∨ fileLen = 0 ∨ s.index = none ∨ s.index = some 0)) ∧
    (loadPrecondError (GdxSymbol.load s fileLen sess).error →
        (GdxSymbol.load s fileLen sess).state = s) := by
  by_cases hf : (s.hasFile = false ∨ fileLen = 0)
  · have hload : GdxSymbol.load s fileLen sess =
        ⟨s, [], some (.stateError "Cannot load because there is no file pointer")⟩ := by
      unfold GdxSymbol.load
      simp [h, hf]
    rw [hload]
    refine ⟨⟨fun _ => ?_, fun _ => by simp [loadPrecondError]⟩, fun _ => rfl⟩
    rcases hf with h1 | h1
    · exact Or.inl h1
    · exact Or.inr (Or.inl h1)
  · push_neg at hf
    obtain ⟨hf1, hf2⟩ := hf
    simp only [ne_eq, Bool.not_eq_false] at hf1
    have hcond : ¬ (s.hasFile = false ∨ fileLen = 0) := by simp [hf1, hf2]
    rcases hi : s.index with _ | n
    · have hload : GdxSymbol.load s fileLen sess =
          ⟨s, [], some (.stateError "Cannot load because there is no symbol index")⟩ := by
        unfold GdxSymbol.load
        simp [h, hcond, hi]
      rw [hload]
      simp [loadPrecondError, hi]
    · cases n with
      | zero =>
        have hload : GdxSymbol.load s fileLen sess =
            ⟨s, [], some (.stateError "Cannot load because there is no symbol index")⟩ := by
          unfold GdxSymbol.load
          simp [h, hcond, hi]
        rw [hload]
        simp [loadPrecondError, hi]
      | succ i =>
        have hne : ¬ loadPrecondError (GdxSymbol.load s fileLen sess).error := by
          rcases load_bound_error s fileLen sess i h hf1 hf2 hi with h1 | h1 <;>
            simp [loadPrecondError, h1]
        constructor
        · constructor
          · intro hp; exact absurd hp hne
          · intro hc
            simp [hf1, hf2, hi] at hc
        · intro hp; exact absurd hp hne

/-- C7 counterexample: the universal set, bound at position 0 in a container
holding one symbol, is rejected by load's truthiness test `not self.index`,
though the claim declares position 0 (the universal set) a valid position;
and a bound, not-yet-loaded symbol at the valid position 1 whose referencing
container has since been emptied is rejected by the companion truthiness
test `not self.file`, though the claim says only unbound or positionless
symbols fail. -/
theorem C7_counterexample :
    boundUniv.loaded = false ∧ boundUniv.hasFile = true ∧ boundUniv.index = some 0 ∧
    (GdxSymbol.load boundUniv 1 sessSetRecords).error =
      some (.stateError "Cannot load because there is no symbol index") ∧
    boundSet.loaded = false ∧ boundSet.hasFile = true ∧ boundSet.index = some 1 ∧
    (GdxSymbol.load boundSet 0 sessSetRecords).error =
      some (.stateError "Cannot load because there is no file pointer") := by
  decide

theorem C7_witness :
    (loadPrecondError (GdxSymbol.load boundSet 1 sessSetRecords).error ↔
        (boundSet.hasFile = false ∨ (1 : Nat) = 0 ∨ boundSet.index = none ∨
          boundSet.index = some 0)) ∧
    (loadPrecondError (GdxSymbol.load boundSet 1 sessSetRecords).error →
        (GdxSymbol.load boundSet 1 sessSetRecords).state = boundSet) :=
  C7_amended boundSet 1 sessSetRecords rfl

/-- C10 (amended): the `variable_type` setter is total (never raises).  For a
Variable symbol a valid value is stored; an invalid or missing value yields
Free only when no valid subtype is currently stored — otherwise the request
is silently ignored and the previous subtype kept — and no warning is logged.
For a non-Variable symbol the stored subtype is forced to none, with a
warning exactly when the requested value was not none.  (The claim as frozen
says an invalid/missing value always results in Free; the counterexample
keeps Binary.) -/
theorem C10_amended (s : GdxSymbol) (v : PyObj) :
    (s.data_type = GamsDataType.Variable →
        (s.setVariableType v).1.variable_type =
          some ((coerceVariableType v).getD (s.variable_type.getD GamsVariableType.Free)) ∧
        (s.setVariableType v).2 = []) ∧
    (s.data_type ≠ GamsDataType.Variable →
        (s.setVariableType v).1.variable_type = none ∧
        ((s.setVariableType v).2 = [] ↔ v = PyObj.pnone)) := by
  unfold GdxSymbol.setVariableType
  constructor
  · intro hdt
    rcases hcv : coerceVariableType v with _ | vt
    · rcases hvt : s.variable_type with _ | old <;> simp [hdt, hcv, hvt]
    · simp [hdt, hcv]
  · intro hdt
    by_cases hv : v = PyObj.pnone <;> simp [hdt, hv]

/-- C10 counterexample: a Variable symbol whose stored subtype is Binary
keeps Binary — not Free — when `variable_type` is assigned the missing value
`None` (and likewise for any other invalid value). -/
theorem C10_counterexample :
    binaryVar.data_type = GamsDataType.Variable ∧
    binaryVar.variable_type = some GamsVariableType.Binary ∧
    (binaryVar.setVariableType PyObj.pnone).1.variable_type =
      some GamsVariableType.Binary ∧
    (binaryVar.setVariableType (PyObj.pstr "bogus")).1.variable_type =
      some GamsVariableType.Binary ∧
    (binaryVar.setVariableType PyObj.pnone).1.variable_type ≠
      some GamsVariableType.Free := by
  decide

theorem C10_witness :
    (sampleParam.setVariableType (PyObj.pvartype GamsVariableType.Binary)).1.variable_type = none ∧
    ((sampleParam.setVariableType (PyObj.pvartype GamsVariableType.Binary)).2 = [] ↔
      PyObj.pvartype GamsVariableType.Binary = PyObj.pnone) :=
  (C10_amended sampleParam (PyObj.pvartype GamsVariableType.Binary)).2 (by decide)

/-- `setVariableType` only ever touches the `variable_type` field. -/
theorem setVariableType_shape (s : GdxSymbol) (v : PyObj) :
    (s.setVariableType v).1 =
      { s with variable_type := (s.setVariableType v).1.variable_type } := by
  unfold GdxSymbol.setVariableType
  split
  · split
    · rfl
    · split <;> rfl
  · split <;> rfl

/-- C8 (amended): the `data_type` setter fails with the state error — leaving
the symbol untouched — exactly when the symbol is unloaded or holds records;
otherwise it installs the new kind, re-initializes the table with the new
kind's channel columns, and pushes `None` through the `variable_type` setter,
so the stored subtype becomes none for non-Variable kinds but Free (or the
previously stored subtype, if any) when the new kind is Variable.  (The claim
as frozen says the subtype is always reset to none.) -/
theorem C8_amended (s : GdxSymbol) (c : Nat) (dt : GamsDataType)
    (hc : GamsDataType.ofCode c = some dt) :
    ((s.loaded = false ∨ s.num_records > 0) →
        (s.setDataType c).error =
          some (.stateError "Cannot change the data_type of a GdxSymbol that is yet to be read or contains records") ∧
        (s.setDataType c).state = s) ∧
    (s.loaded = true → s.num_records = 0 →
        (s.setDataType c).error = none ∧
        (s.setDataType c).state.data_type = dt ∧
        (s.setDataType c).state.dataframe =
          ⟨(s.dims ++ (GAMS_VALUE_COLS_MAP dt).map Prod.fst).map PyObj.pstr, []⟩ ∧
        (s.setDataType c).state.variable_type =
          (if dt = GamsDataType.Variable then
             some (s.variable_type.getD GamsVariableType.Free)
           else none)) := by
  constructor
  · intro hcond
    unfold GdxSymbol.setDataType
    simp [hcond]
  · intro hl hr
    have hcond : ¬ (s.loaded = false ∨ s.num_records > 0) := by simp [hl, hr]
    unfold GdxSymbol.setDataType
    rw [if_neg hcond, hc]
    dsimp only
    have hshape := setVariableType_shape { s with data_type := dt } PyObj.pnone
    rw [hshape]
    refine ⟨rfl, ?_, ?_, ?_⟩
    · simp [GdxSymbol.initDataframe]
    · simp [GdxSymbol.initDataframe, colNames, GdxSymbol.value_col_names, GdxSymbol.value_cols]
    · unfold GdxSymbol.setVariableType
      by_cases hdt : dt = GamsDataType.Variable
      · rcases hvt : s.variable_type with _ | old <;>
          simp [hdt, hvt, coerceVariableType, GdxSymbol.initDataframe]
      · simp [hdt, GdxSymbol.initDataframe]

/-- C8 counterexample: changing a loaded, record-free Parameter's kind to
Variable leaves the stored subtype Free, not none. -/
theorem C8_counterexample :
    emptyParam.loaded = true ∧ emptyParam.num_records = 0 ∧
    (emptyParam.setDataType 2).error = none ∧
    (emptyParam.setDataType 2).state.data_type = GamsDataType.Variable ∧
    (emptyParam.setDataType 2).state.variable_type = some GamsVariableType.Free ∧
    (emptyParam.setDataType 2).state.variable_type ≠ none := by
  decide

theorem C8_witness :
    (emptyParam.setDataType 0).error = none ∧
    (emptyParam.setDataType 0).state.data_type = GamsDataType.Set ∧
    (emptyParam.setDataType 0).state.dataframe =
      ⟨(emptyParam.dims ++ (GAMS_VALUE_COLS_MAP GamsDataType.Set).map Prod.fst).map PyObj.pstr, []⟩ ∧
    (emptyParam.setDataType 0).state.variable_type =
      (if GamsDataType.Set = GamsDataType.Variable then
         some (emptyParam.variable_type.getD GamsVariableType.Free)
       else none) :=
  (C8_amended emptyParam 0 GamsDataType.Set rfl).2 rfl rfl

/-- C4 (code bug witnessed on the code): a loaded 1-dimensional Parameter
holding one record, assigned the disagreeing integer dimensionality 2, emits
the "Cannot set dims ... already contains data" warning — and then proceeds
anyway, replacing the table with an empty one: the stored row is silently
dropped, although the warning text (and the claim) says the assignment
cannot happen. -/
theorem C4_dims_drop_eval :
    sampleParam.loaded = true ∧
    sampleParam.num_records = 1 ∧
    sampleParam.num_dims = 1 ∧
    (sampleParam.setDims (DimsValue.ofInt 2)).warnings =
      ["Cannot set dims because dataframe with existing dims already contains data"] ∧
    (sampleParam.setDims (DimsValue.ofInt 2)).error = none ∧
    (sampleParam.setDims (DimsValue.ofInt 2)).state.dataframe.rows = [] ∧
    (sampleParam.setDims (DimsValue.ofInt 2)).state.num_records = 0 := by
  decide

/-- `setLast` on a non-empty list is `dropLast` plus the new last entry. -/
theorem setLast_eq (l : List PyObj) (v : PyObj) (h : l ≠ []) :
    setLast l v = l.dropLast ++ [v] := by
  induction l with
  | nil => exact absurd rfl h
  | cons x rest ih =>
    cases rest with
    | nil => simp [setLast]
    | cons y t =>
      rw [setLast, ih (by simp)]
      simp

/-- Every row a Set symbol builds ends in the boolean `True` marker,
whatever numeric payload the record stream carried. -/
theorem buildRow_marker (s : GdxSymbol) (r : RawRecord)
    (h : s.data_type = GamsDataType.Set) :
    (s.buildRow r).getLast? = some (PyObj.pbool true) := by
  unfold GdxSymbol.buildRow
  rw [if_pos h]
  have hne : r.elements.map PyObj.pstr ++
      s.value_cols.map (fun c => PyObj.pint (r.values.getD c.2 0)) ≠ [] := by
    simp [GdxSymbol.value_cols, h, GAMS_VALUE_COLS_MAP]
  rw [setLast_eq _ _ hne]
  simp

/-- The rows the loaded table receives when `load` succeeds on an unloaded,
bound symbol at index `i + 1` (other than through the gdx2py shortcut). -/
theorem setDataframe_rows_ok (s : GdxSymbol) (data : List (List PyObj))
    (h : (s.setDataframe (DataframeArg.rows data)).error = none) :
    (s.setDataframe (DataframeArg.rows data)).state =
      { s with dataframe := ⟨colNames s, data⟩ } := by
  simp only [GdxSymbol.setDataframe, mkDataFrame] at *
  split at h
  · rename_i e heq
    simp at h
  · rename_i df heq
    split at heq
    · simp only [Except.ok.injEq] at heq
      subst heq
      rfl
    · simp at heq

/-- C6's conclusion: every row of the table carries the `defined = True`
marker in its (last) value position. -/
def allRowsDefinedTrue (rs : List (List PyObj)) : Prop :=
  ∀ r ∈ rs, r.getLast? = some (PyObj.pbool true)

/-- C6: whenever `load` succeeds on a not-yet-loaded Set symbol, every row it
produced carries the boolean marker `True` in the single value position,
regardless of the numeric channel values present in the session's record
stream. -/
theorem C6_set_rows_marker (s : GdxSymbol) (fileLen : Nat) (sess : SessionData)
    (hdt : s.data_type = GamsDataType.Set) (hl : s.loaded = false)
    (hok : (GdxSymbol.load s fileLen sess).error = none) :
    allRowsDefinedTrue (GdxSymbol.load s fileLen sess).state.dataframe.rows := by
  unfold GdxSymbol.load at *
  simp only [hl] at *
  by_cases hf : (s.hasFile = false ∨ fileLen = 0)
  · simp [hf] at hok
  · simp only [if_neg hf] at *
    rcases hi : s.index with _ | n
    · simp [hi] at hok
    · cases n with
      | zero => simp [hi] at hok
      | succ i =>
        simp only [hi] at *
        have hp : ¬ (s.data_type = GamsDataType.Parameter ∧ sess.gdx2pyAvailable = true) := by
          simp [hdt]
        simp only [if_neg hp] at *
        rcases hr : (s.setDataframe (DataframeArg.rows
            ((sess.symbolRecords (i + 1)).map s.buildRow))).error with _ | e
        · have hst := setDataframe_rows_ok s ((sess.symbolRecords (i + 1)).map s.buildRow) hr
          simp only [hr, hst]
          unfold allRowsDefinedTrue
          intro r hrmem
          simp at hrmem
          obtain ⟨rec, _, hrec⟩ := hrmem
          rw [← hrec]
          exact buildRow_marker s rec hdt
        · simp [hr] at hok

theorem C6_witness :
    allRowsDefinedTrue (GdxSymbol.load boundSet 1 sessSetRecords).state.dataframe.rows :=
  C6_set_rows_marker boundSet 1 sessSetRecords rfl rfl (by decide)

/-- The session effects one loaded symbol's write emits: its rows, in order. -/
def symEvents (s : GdxSymbol) : List WriteEvent :=
  s.dataframe.rows.map (fun r => WriteEvent.record s.name r)

/-- When every symbol in the list is loaded, the write loop emits exactly the
concatenation of the per-symbol row streams, in container order. -/
theorem writeSymbolsLoop_ok (l : List GdxSymbol) (h : ∀ s ∈ l, s.loaded = true) :
    writeSymbolsLoop l = .ok (l.map symEvents).flatten := by
  induction l with
  | nil => simp [writeSymbolsLoop]
  | cons s rest ih =>
    have hs : s.loaded = true := h s (by simp)
    have hr : ∀ x ∈ rest, x.loaded = true := fun x hx => h x (by simp [hx])
    unfold writeSymbolsLoop GdxSymbol.writeSym
    rw [ih hr]
    simp [hs, symEvents]

/-- Some contained symbol is unloaded. -/
def hasUnloaded (f : GdxFile) : Prop := ∃ s ∈ f.symbolList, s.loaded = false

instance (f : GdxFile) : Decidable (hasUnloaded f) := by
  unfold hasUnloaded; infer_instance

/-- Every contained symbol is loaded. -/
def allLoaded (f : GdxFile) : Prop := ∀ s ∈ f.symbolList, s.loaded = true

instance (f : GdxFile) : Decidable (allLoaded f) := by
  unfold allLoaded; infer_instance

/-- C5: whenever some contained symbol is unloaded, `write` fails with the
state error and writes nothing — unconditionally, for EVERY session (whether
or not it could open for writing) and whatever the universal-set slot holds:
the loaded check runs before any session call, so no session effect is
emitted and the container is untouched.  And when every contained symbol is
loaded, the universal set is present and loaded, and the session opens,
`write` binds the filename and emits exactly: open-for-write with producer
"gdxpds", the universal set's rows first, then every contained symbol's rows
in container order, then close.  (`GdxSymbol.write` itself is modelled from
the spec, its body being left unfinished in the source.) -/
theorem C5_write (f : GdxFile) (sess : SessionData) (fn : String) :
    (hasUnloaded f →
        (f.write sess fn).error =
          some (.stateError "All symbols must be loaded before this file can be written") ∧
        (f.write sess fn).events = [] ∧
        (f.write sess fn).state = f) ∧
    (f.universal_set.map GdxSymbol.loaded = some true → sess.openWriteOk = true →
        allLoaded f →
        (f.write sess fn).error = none ∧
        (f.write sess fn).state = { f with filename := some fn } ∧
        (f.write sess fn).events =
          WriteEvent.openWrite fn "gdxpds" ::
            (f.universal_set.elim [] symEvents ++
              (f.symbolList.map symEvents).flatten ++ [WriteEvent.close])) := by
  constructor
  · intro hex
    obtain ⟨s, hsmem, hsl⟩ := hex
    have hany : f.symbolList.any (fun s => !s.loaded) = true := by
      rw [List.any_eq_true]
      exact ⟨s, hsmem, by simp [hsl]⟩
    unfold GdxFile.write
    simp [hany]
  · intro husl hwOk hall
    rcases hus : f.universal_set with _ | us
    · rw [hus] at husl
      simp at husl
    · rw [hus] at husl
      simp only [Option.map_some', Option.some.injEq] at husl
      have hany : f.symbolList.any (fun s => !s.loaded) = false := by
        rw [List.any_eq_false]
        intro s hs
        simp [hall s hs]
      have hloop := writeSymbolsLoop_ok f.symbolList hall
      have hwus : us.writeSym = .ok (symEvents us) := by
        unfold GdxSymbol.writeSym
        simp [husl, symEvents]
      unfold GdxFile.write
      simp only [GdxFile.symbolList] at hany hloop ⊢
      simp [hany, hwOk, hus, hwus, hloop, Option.elim]

theorem C5_witness :
    ((lazyFile.write sessNoWrite "n.gdx").error =
        some (.stateError "All symbols must be loaded before this file can be written") ∧
      (lazyFile.write sessNoWrite "n.gdx").events = [] ∧
      (lazyFile.write sessNoWrite "n.gdx").state = lazyFile) ∧
    ((writeReadyFile.write sessSetRecords "out.gdx").error = none ∧
      (writeReadyFile.write sessSetRecords "out.gdx").state =
        { writeReadyFile with filename := some "out.gdx" } ∧
      (writeReadyFile.write sessSetRecords "out.gdx").events =
        WriteEvent.openWrite "out.gdx" "gdxpds" ::
          (writeReadyFile.universal_set.elim [] symEvents ++
            (writeReadyFile.symbolList.map symEvents).flatten ++ [WriteEvent.close])) :=
  ⟨(C5_write lazyFile sessNoWrite "n.gdx").1 (by decide),
   (C5_write writeReadyFile sessSetRecords "out.gdx").2 rfl rfl (by decide)⟩

/-- Replacing the value at a key rewrites values only: the key list is
untouched. -/
theorem odSet_replace_keys (d : List (String × GdxSymbol)) (k : String) (v : GdxSymbol) :
    (d.map (fun p => if p.1 = k then (k, v) else p)).map Prod.fst = d.map Prod.fst := by
  induction d with
  | nil => rfl
  | cons p t ih =>
    by_cases hp : p.1 = k
    · simp [hp, ih]
    · simp [hp, ih]

/-- `odSet` keeps the key list duplicate-free. -/
theorem odSet_keys_nodup (d : List (String × GdxSymbol)) (k : String) (v : GdxSymbol)
    (h : (d.map Prod.fst).Nodup) : ((odSet d k v).map Prod.fst).Nodup := by
  unfold odSet
  split
  · rw [odSet_replace_keys]
    exact h
  · rename_i hmem
    rw [List.map_append]
    simp only [List.map_cons, List.map_nil]
    rw [List.nodup_append]
    refine ⟨h, List.nodup_singleton k, ?_⟩
    intro a ha hb
    simp only [List.mem_singleton] at hb
    subst hb
    rw [List.mem_map] at ha
    obtain ⟨p, hp, hpk⟩ := ha
    exact hmem (by rw [List.any_eq_true]; exact ⟨p, hp, by simp [hpk]⟩)

theorem odSet_not_mem (d : List (String × GdxSymbol)) (k : String) (v : GdxSymbol)
    (h : d.any (fun p => p.1 = k) = false) :
    odSet d k v = d ++ [(k, v)] := by
  unfold odSet
  simp [h]

theorem odSet_length_mem (d : List (String × GdxSymbol)) (k : String) (v : GdxSymbol)
    (h : d.any (fun p => p.1 = k) = true) :
    (odSet d k v).length = d.length := by
  unfold odSet
  simp [h]

theorem odSet_ne_nil (d : List (String × GdxSymbol)) (k : String) (v : GdxSymbol) :
    odSet d k v ≠ [] := by
  unfold odSet
  split
  · rename_i h
    intro hc
    simp only [List.map_eq_nil_iff] at hc
    subst hc
    simp at h
  · intro hc
    simp at hc

/-- Folding `odSet` over pairwise-fresh keys is a plain append. -/
theorem foldl_odSet_eq_append (l : List (String × GdxSymbol)) :
    ∀ acc : List (String × GdxSymbol), ((acc ++ l).map Prod.fst).Nodup →
      l.foldl (fun a p => odSet a p.1 p.2) acc = acc ++ l := by
  induction l with
  | nil => intro acc _; simp
  | cons p t ih =>
    intro acc h
    have hnm : acc.any (fun q => q.1 = p.1) = false := by
      simp only [List.any_eq_false, decide_eq_true_eq]
      intro q hq
      rw [List.map_append, List.nodup_append] at h
      obtain ⟨_, _, hdisj⟩ := h
      intro hqp
      exact hdisj (a := q.1) (by rw [List.mem_map]; exact ⟨q, hq, rfl⟩)
        (by rw [hqp]; simp)
    rw [List.foldl_cons]
    have hstep : odSet acc p.1 p.2 = acc ++ [p] := by
      rw [odSet_not_mem acc p.1 p.2 hnm]
    rw [hstep]
    have := ih (acc ++ [p]) (by simpa using h)
    simpa using this

/-- `OrderedDict(pairs)` is the identity on association lists whose keys are
already duplicate-free. -/
theorem odFromList_eq_self (d : List (String × GdxSymbol))
    (h : (d.map Prod.fst).Nodup) : odFromList d = d := by
  have := foldl_odSet_eq_append d [] (by simpa using h)
  simpa [odFromList] using this

theorem odFromList_keys_nodup_aux (l : List (String × GdxSymbol)) :
    ∀ acc : List (String × GdxSymbol), (acc.map Prod.fst).Nodup →
      ((l.foldl (fun a p => odSet a p.1 p.2) acc).map Prod.fst).Nodup := by
  induction l with
  | nil => intro acc h; simpa
  | cons p t ih => intro acc h; exact ih _ (odSet_keys_nodup acc p.1 p.2 h)

/-- Whatever pairs it is given, `OrderedDict(pairs)` has duplicate-free keys. -/
theorem odFromList_keys_nodup (l : List (String × GdxSymbol)) :
    ((odFromList l).map Prod.fst).Nodup :=
  odFromList_keys_nodup_aux l [] (by simp)

theorem pairs_map_eq (l : List (String × GdxSymbol)) (h : ∀ p ∈ l, p.1 = p.2.name) :
    l.map (fun p => (p.2.name, p.2)) = l := by
  induction l with
  | nil => rfl
  | cons p t ih =>
    have hp := h p (by simp)
    have ht := ih (fun q hq => h q (by simp [hq]))
    simp [ht, ← hp]

theorem listInsert_length_eq_append (l : List α) (x : α) :
    listInsert l.length x l = l ++ [x] := by
  induction l with
  | nil => rfl
  | cons y ys ih => simp [listInsert, List.length_cons, ih]

/-- The container is well formed: duplicate-free keys, each symbol stored
under its own name. -/
def GdxFile.wf (f : GdxFile) : Prop :=
  (f.symbols.map Prod.fst).Nodup ∧ ∀ p ∈ f.symbols, p.1 = p.2.name

instance (f : GdxFile) : Decidable f.wf := by
  unfold GdxFile.wf; infer_instance

/-- `append` (insert at the end) always succeeds and rebuilds the dict from
the live name pairs plus the new entry. -/
theorem appendSym_eq (f : GdxFile) (v : GdxSymbol) :
    f.appendSym v = ⟨{ f with symbols := odFromList ((f.symbolList.map (fun s => (s.name, s))) ++ [(v.name, { v with hasFile := true })]) }, [], none⟩ := by
  unfold GdxFile.appendSym GdxFile.insertSym GdxFile.checkKey
  rw [if_neg (lt_irrefl _)]
  dsimp only
  rw [show f.symbols.length = (f.symbolList.map (fun s => (s.name, s))).length from by
        simp [GdxFile.symbolList],
      listInsert_length_eq_append]

/-- C2 (amended): the container's name-keyed map keeps its keys pairwise
distinct across insert, positional replacement and deletion — but NOT by
raising on collisions: appending (insert at the end) never raises, and
appending a symbol whose name is already present silently collapses into the
existing entry (the length does not grow); positional replacement at an
existing index always raises while rebuilding the name keys (after swapping
the new symbol in under the old key).  (The claim as frozen says a duplicate
name insert/append is an error; the counterexample shows a silent
overwrite.) -/
theorem C2_amended :
    (∀ (f : GdxFile) (k : Nat) (v : GdxSymbol), (f.symbols.map Prod.fst).Nodup →
        ((f.insertSym k v).state.symbols.map Prod.fst).Nodup) ∧
    (∀ (f : GdxFile) (k : Nat) (v : GdxSymbol), (f.symbols.map Prod.fst).Nodup →
        ((f.setItem k v).state.symbols.map Prod.fst).Nodup) ∧
    (∀ (f : GdxFile) (k : Nat), (f.symbols.map Prod.fst).Nodup →
        ((f.delItem k).state.symbols.map Prod.fst).Nodup) ∧
    (∀ (f : GdxFile) (v : GdxSymbol), (f.appendSym v).error = none) ∧
    (∀ (f : GdxFile) (k : Nat) (v : GdxSymbol), k < f.symbols.length →
        ((f.setItem k v).error).isSome = true) ∧
    (∀ (f : GdxFile) (v : GdxSymbol), f.wf → v.name ∈ f.symbols.map Prod.fst →
        (f.appendSym v).error = none ∧
        (f.appendSym v).state.symbols.length = f.symbols.length) := by
  have happend_err : ∀ (f : GdxFile) (v : GdxSymbol), (f.appendSym v).error = none := by
    intro f v
    rw [appendSym_eq]
  refine ⟨?_, ?_, ?_, happend_err, ?_, ?_⟩
  · intro f k v h
    unfold GdxFile.insertSym GdxFile.checkKey
    by_cases hk : k > f.symbols.length
    · simp [hk, h]
    · simp only [if_neg hk]
      exact odFromList_keys_nodup _
  · intro f k v h
    unfold GdxFile.setItem GdxFile.checkKey
    by_cases hk : k > f.symbols.length
    · simp [hk, h]
    · simp only [if_neg hk]
      by_cases hlt : k < f.symbols.length
      · simp only [dif_pos hlt]
        have hnodup := odSet_keys_nodup f.symbols (f.symbols.get ⟨k, hlt⟩).1
          { v with hasFile := true } h
        rcases hq : odSet f.symbols (f.symbols.get ⟨k, hlt⟩).1
            { v with hasFile := true } with _ | ⟨q, t⟩
        · exact absurd hq (odSet_ne_nil _ _ _)
        · rw [hq] at hnodup
          simp only [hq, fixupNameKeys]
          split
          · exact hnodup
          · rename_i d heq
            split at heq <;> simp at heq
      · simp only [dif_neg hlt]
        exact odSet_keys_nodup _ _ _ h
  · intro f k h
    unfold GdxFile.delItem
    by_cases hlt : k < f.symbols.length
    · simp only [dif_pos hlt]
      exact ((List.filter_sublist _).map Prod.fst).nodup h
    · simp [dif_neg hlt, h]
  · intro f k v hlt
    have hk : ¬ k > f.symbols.length := by omega
    unfold GdxFile.setItem GdxFile.checkKey
    simp only [if_neg hk, dif_pos hlt]
    rcases hq : odSet f.symbols (f.symbols.get ⟨k, hlt⟩).1
        { v with hasFile := true } with _ | ⟨q, t⟩
    · exact absurd hq (odSet_ne_nil _ _ _)
    · simp only [hq, fixupNameKeys]
      split
      · simp
      · rename_i d heq
        split at heq <;> simp at heq
  · intro f v hwf hmem
    have hdata : f.symbolList.map (fun s => (s.name, s)) = f.symbols := by
      unfold GdxFile.symbolList
      rw [List.map_map]
      exact pairs_map_eq f.symbols hwf.2
    have hany : f.symbols.any (fun p => p.1 = v.name) = true := by
      rw [List.any_eq_true]
      rw [List.mem_map] at hmem
      obtain ⟨p, hp, hfst⟩ := hmem
      exact ⟨p, hp, by simp [hfst]⟩
    refine ⟨happend_err f v, ?_⟩
    rw [appendSym_eq]
    dsimp only
    rw [hdata, odFromList, List.foldl_append]
    have hself : f.symbols.foldl (fun a p => odSet a p.1 p.2) [] = f.symbols := by
      have h2 := odFromList_eq_self f.symbols hwf.1
      simpa [odFromList] using h2
    rw [hself]
    simp only [List.foldl_cons, List.foldl_nil]
    exact odSet_length_mem f.symbols v.name _ hany

/-- C2 counterexample: a container holding the single symbol `p`, asked to
insert (append) a second symbol also named `p`, raises no error: the new
symbol silently replaces the stored one and the container still has exactly
one entry. -/
theorem C2_counterexample :
    oneSymbolFile.symbols.length = 1 ∧
    sampleParamClone.name = "p" ∧
    oneSymbolFile.keys = ["p"] ∧
    (oneSymbolFile.insertSym 1 sampleParamClone).error = none ∧
    (oneSymbolFile.insertSym 1 sampleParamClone).state.symbols.length = 1 ∧
    (oneSymbolFile.insertSym 1 sampleParamClone).state.symbols.map
      (fun p => p.2.description) = ["duplicate name"] := by
  decide

theorem C2_witness :
    (oneSymbolFile.appendSym sampleParamClone).error = none ∧
    (oneSymbolFile.appendSym sampleParamClone).state.symbols.length =
      oneSymbolFile.symbols.length :=
  C2_amended.2.2.2.2.2 oneSymbolFile sampleParamClone (by decide) (by decide)

/-- The shape invariant of C3: the table's column labels are exactly
`dims + value_col_names` (hence there are `num_dims + channel-count` of
them, channels in fixed order). -/
def colInvariant (s : GdxSymbol) : Prop := s.dataframe.columns = colNames s

theorem colInvariant_initDataframe (s : GdxSymbol) : colInvariant s.initDataframe := by
  unfold colInvariant GdxSymbol.initDataframe colNames
  rfl

/-- Every successful run of the `dims` setter restores the column
invariant. -/
theorem setDims_colInvariant (s : GdxSymbol) (v : DimsValue)
    (h : (s.setDims v).error = none) : colInvariant (s.setDims v).state := by
  rcases hr : s.setDims v with ⟨st, ws, err⟩
  rw [hr] at h
  simp only at h
  subst h
  show colInvariant st
  unfold GdxSymbol.setDims at hr
  cases v with
  | ofInt n =>
    simp only at hr
    injection hr with h1 h2 h3
    rw [← h1]
    exact colInvariant_initDataframe _
  | ofOther =>
    simp only at hr
    injection hr with h1 h2 h3
    simp at h3
  | ofList l =>
    simp only at hr
    split at hr
    · injection hr with h1 h2 h3
      simp at h3
    · split at hr
      · split at hr
        · injection hr with h1 h2 h3
          rw [← h1]
          unfold colInvariant colNames
          rfl
        · injection hr with h1 h2 h3
          simp at h3
      · injection hr with h1 h2 h3
        rw [← h1]
        exact colInvariant_initDataframe _

/-- Every successful run of the `data_type` setter restores the column
invariant. -/
theorem setDataType_colInvariant (s : GdxSymbol) (c : Nat)
    (h : (s.setDataType c).error = none) : colInvariant (s.setDataType c).state := by
  unfold GdxSymbol.setDataType at h ⊢
  by_cases hc : (s.loaded = false ∨ s.num_records > 0)
  · rw [if_pos hc] at h
    simp at h
  · rw [if_neg hc] at h ⊢
    rcases hdt : GamsDataType.ofCode c with _ | dt
    · rw [hdt] at h
      simp at h
    · dsimp only
      exact colInvariant_initDataframe _

/-- Every successful run of the `dataframe` setter restores the column
invariant (the `DataFrame`-input branch can never succeed in this code). -/
theorem setDataframe_colInvariant (s : GdxSymbol) (a : DataframeArg)
    (h : (s.setDataframe a).error = none) : colInvariant (s.setDataframe a).state := by
  cases a with
  | rows data =>
    rw [setDataframe_rows_ok s data h]
    unfold colInvariant colNames
    rfl
  | frame d =>
    exfalso
    unfold GdxSymbol.setDataframe at h
    dsimp only at h
    split at h
    · have hofother : (s.setDims DimsValue.ofOther).error =
          some (.stateError "dims must be an int or a list") := rfl
      simp [hofother] at h
    · split at h <;> simp at h

/-- Whenever `load` succeeds on a not-yet-loaded symbol, the resulting table
satisfies the column invariant. -/
theorem load_colInvariant (s : GdxSymbol) (fileLen : Nat) (sess : SessionData)
    (hl : s.loaded = false) (h : (GdxSymbol.load s fileLen sess).error = none) :
    colInvariant (GdxSymbol.load s fileLen sess).state := by
  unfold GdxSymbol.load at h ⊢
  simp only [hl] at h ⊢
  by_cases hf : (s.hasFile = false ∨ fileLen = 0)
  · simp [hf] at h
  · simp only [if_neg hf] at h ⊢
    rcases hi : s.index with _ | n
    · simp [hi] at h
    · cases n with
      | zero => simp [hi] at h
      | succ i =>
        simp only [hi] at h ⊢
        by_cases hp : s.data_type = GamsDataType.Parameter ∧ sess.gdx2pyAvailable = true
        · simp only [if_pos hp] at h ⊢
          rcases he : (s.setDataframe (DataframeArg.rows (sess.par2list s.name))).error
              with _ | e
          · simp only [he]
            rw [setDataframe_rows_ok s (sess.par2list s.name) he]
            unfold colInvariant colNames
            rfl
          · simp [he] at h
        · simp only [if_neg hp] at h ⊢
          rcases he : (s.setDataframe (DataframeArg.rows
              ((sess.symbolRecords (i + 1)).map s.buildRow))).error with _ | e
          · simp only [he]
            rw [setDataframe_rows_ok s ((sess.symbolRecords (i + 1)).map s.buildRow) he]
            unfold colInvariant colNames
            rfl
          · simp [he] at h

/-- The invariant only mentions the table, the domain and the kind, so it
transfers along equality of those three fields. -/
theorem colInvariant_of_eqFields (s t : GdxSymbol) (h : colInvariant s)
    (hdf : t.dataframe = s.dataframe) (hd : t.dims = s.dims)
    (hdt : t.data_type = s.data_type) : colInvariant t := by
  unfold colInvariant colNames GdxSymbol.value_col_names GdxSymbol.value_cols at h ⊢
  rw [hdf, hd, hdt]
  exact h

/-- A symbol produced by the file-independent constructor core satisfies the
column invariant. -/
theorem initCore_colInvariant (n : String) (dtc : Nat) (dv : DimsValue) (de : String)
    (vt : PyObj) (s : GdxSymbol) (w : List String)
    (h : GdxSymbol.initCore n dtc dv de vt = .ok (s, w)) : colInvariant s := by
  unfold GdxSymbol.initCore at h
  rcases hdt : GamsDataType.ofCode dtc with _ | dt
  · rw [hdt] at h
    simp at h
  · rw [hdt] at h
    dsimp only at h
    split at h
    · simp at h
    · rename_i herr
      simp only [Except.ok.injEq, Prod.mk.injEq] at h
      obtain ⟨hs, hw⟩ := h
      rw [← hs]
      exact setDims_colInvariant _ _ herr

/-- A freestanding symbol satisfies the column invariant on construction. -/
theorem make_colInvariant (n : String) (dtc : Nat) (dv : DimsValue) (de : String)
    (vt : PyObj) (s : GdxSymbol) (w : List String)
    (h : GdxSymbol.make n dtc dv de vt = .ok (s, w)) : colInvariant s := by
  unfold GdxSymbol.make at h
  split at h
  · simp at h
  · rename_i s0 w0 heq
    simp only [Except.ok.injEq, Prod.mk.injEq] at h
    obtain ⟨hs, hw⟩ := h
    have h0 := initCore_colInvariant n dtc dv de vt s0 w0 heq
    rw [← hs]
    exact colInvariant_of_eqFields s0 _ h0 rfl rfl rfl

/-- The `variable_type` setter leaves table, domain and kind untouched. -/
theorem setVariableType_preserves (s : GdxSymbol) (v : PyObj) :
    ((s.setVariableType v).1.dataframe = s.dataframe) ∧
    ((s.setVariableType v).1.dims = s.dims) ∧
    ((s.setVariableType v).1.data_type = s.data_type) := by
  rw [setVariableType_shape s v]
  exact ⟨rfl, rfl, rfl⟩

/-- A bound (file-constructed) symbol satisfies the column invariant on
construction. -/
theorem construct_colInvariant (sess : SessionData) (n : String) (dtc : Nat)
    (dc : Nat) (i : Nat) (s : GdxSymbol) (w : List String)
    (h : GdxSymbol.construct sess n dtc dc i = .ok (s, w)) : colInvariant s := by
  unfold GdxSymbol.construct at h
  split at h
  · simp at h
  · rename_i s0 w0 heq
    have h0 := initCore_colInvariant n dtc (DimsValue.ofInt dc) "" PyObj.pnone s0 w0 heq
    dsimp only at h
    split at h
    · simp at h
    · rename_i records userinfo descr hinfox
      split at h
      · simp at h
      · rename_i s2 w2 hstep
        have h2 : colInvariant s2 := by
          by_cases hvar : s0.data_type = GamsDataType.Variable
          · rw [if_pos hvar] at hstep
            rcases hofc : GamsVariableType.ofCode userinfo with _ | vtv
            · rw [hofc] at hstep
              simp at hstep
            · rw [hofc] at hstep
              simp only [Except.ok.injEq] at hstep
              have hfst := congrArg Prod.fst hstep
              dsimp only at hfst
              refine colInvariant_of_eqFields s0 s2 h0 ?_ ?_ ?_ <;>
                rw [← hfst] <;> rw [setVariableType_shape]
          · rw [if_neg hvar] at hstep
            simp only [Except.ok.injEq, Prod.mk.injEq] at hstep
            obtain ⟨hs2, hw2⟩ := hstep
            refine colInvariant_of_eqFields s0 s2 h0 ?_ ?_ ?_ <;> rw [← hs2]
        by_cases hpos : i > 0
        · rw [if_pos hpos] at h
          rcases hdom : sess.symbolDomain i with _ | dom
          · rw [hdom] at h
            simp at h
          · rw [hdom] at h
            dsimp only at h
            split at h
            · simp at h
            · split at h
              · simp at h
              · rename_i hlen herr
                simp only [Except.ok.injEq, Prod.mk.injEq] at h
                obtain ⟨hs, hw⟩ := h
                rw [← hs]
                exact setDims_colInvariant _ _ herr
        · rw [if_neg hpos] at h
          simp only [Except.ok.injEq, Prod.mk.injEq] at h
          obtain ⟨hs, hw⟩ := h
          rw [← hs]
          exact colInvariant_of_eqFields s2 _ h2 rfl rfl rfl

/-- C3 (amended): the column-count invariant, restricted to successful
operations.  The channel columns are, in fixed order, Level, Marginal,
Lower, Upper, Scale for Variable and Equation kinds and the single Value
column for every other kind, so a table obeying the invariant has exactly
`num_dims + 5` resp. `num_dims + 1` columns; and the invariant is
(re)established by every operation — freestanding construction, bound
construction, load, dims assignment, data_type assignment, and dataframe
assignment — whenever the operation succeeds.  (The claim as frozen asserts
the invariant after ANY operation; the counterexample shows a failed
wrong-length list dims assignment on a symbol with records replaces the
dims and then raises, leaving the column count out of step.) -/
theorem C3_column_invariant :
    ((GAMS_VALUE_COLS_MAP GamsDataType.Variable).map Prod.fst =
        ["Level", "Marginal", "Lower", "Upper", "Scale"]) ∧
    ((GAMS_VALUE_COLS_MAP GamsDataType.Equation).map Prod.fst =
        ["Level", "Marginal", "Lower", "Upper", "Scale"]) ∧
    (∀ dt : GamsDataType, dt ≠ GamsDataType.Variable → dt ≠ GamsDataType.Equation →
        (GAMS_VALUE_COLS_MAP dt).map Prod.fst = ["Value"]) ∧
    (∀ s : GdxSymbol, colInvariant s →
        s.dataframe.columns.length = s.num_dims + s.value_col_names.length) ∧
    (∀ (n : String) (dtc : Nat) (dv : DimsValue) (de : String) (vt : PyObj)
        (s : GdxSymbol) (w : List String),
        GdxSymbol.make n dtc dv de vt = .ok (s, w) → colInvariant s) ∧
    (∀ (sess : SessionData) (n : String) (dtc dc i : Nat) (s : GdxSymbol)
        (w : List String),
        GdxSymbol.construct sess n dtc dc i = .ok (s, w) → colInvariant s) ∧
    (∀ (s : GdxSymbol) (fileLen : Nat) (sess : SessionData), s.loaded = false →
        (GdxSymbol.load s fileLen sess).error = none →
        colInvariant (GdxSymbol.load s fileLen sess).state) ∧
    (∀ (s : GdxSymbol) (v : DimsValue), (s.setDims v).error = none →
        colInvariant (s.setDims v).state) ∧
    (∀ (s : GdxSymbol) (c : Nat), (s.setDataType c).error = none →
        colInvariant (s.setDataType c).state) ∧
    (∀ (s : GdxSymbol) (a : DataframeArg), (s.setDataframe a).error = none →
        colInvariant (s.setDataframe a).state) := by
  refine ⟨rfl, rfl, ?_, ?_, make_colInvariant, construct_colInvariant,
      load_colInvariant, setDims_colInvariant, setDataType_colInvariant,
      setDataframe_colInvariant⟩
  · intro dt h1 h2
    cases dt <;> simp_all [GAMS_VALUE_COLS_MAP]
  · intro s h
    unfold colInvariant colNames at h
    rw [h]
    simp [GdxSymbol.num_dims]

/-- C3 counterexample: a loaded 1-dimensional Parameter holding one record,
assigned the wrong-length string-list dims ["a", "b"].  The setter replaces
`_dims` first and only then hits pandas' length-mismatch `ValueError` on the
column relabel, so after the operation the symbol has dimensionality 2 but
still its old 2-column table: 2 is not 2 + 1, violating the claimed
invariant at a reachable state. -/
theorem C3_counterexample :
    sampleParam.loaded = true ∧ sampleParam.num_records = 1 ∧
    ((sampleParam.setDims (DimsValue.ofList [PyObj.pstr "a", PyObj.pstr "b"])).error).isSome
      = true ∧
    (sampleParam.setDims (DimsValue.ofList [PyObj.pstr "a", PyObj.pstr "b"])).state.dims
      = ["a", "b"] ∧
    (sampleParam.setDims
      (DimsValue.ofList [PyObj.pstr "a", PyObj.pstr "b"])).state.dataframe.columns.length
      = 2 ∧
    (sampleParam.setDims (DimsValue.ofList [PyObj.pstr "a", PyObj.pstr "b"])).state.num_dims
      = 2 ∧
    (sampleParam.setDims
      (DimsValue.ofList [PyObj.pstr "a", PyObj.pstr "b"])).state.value_col_names.length
      = 1 ∧
    (sampleParam.setDims
        (DimsValue.ofList [PyObj.pstr "a", PyObj.pstr "b"])).state.dataframe.columns.length ≠
      (sampleParam.setDims
          (DimsValue.ofList [PyObj.pstr "a", PyObj.pstr "b"])).state.num_dims +
        (sampleParam.setDims
            (DimsValue.ofList [PyObj.pstr "a", PyObj.pstr "b"])).state.value_col_names.length := by
  decide

theorem C3_witness :
    colInvariant ((sampleParam.setDims (DimsValue.ofList [PyObj.pstr "a"])).state) :=
  C3_column_invariant.2.2.2.2.2.2.2.1 sampleParam (DimsValue.ofList [PyObj.pstr "a"])
    (by decide)

/-- The enumeration loop only ever touches the symbol collection: file-level
metadata (filename, version, producer) pass through untouched. -/
theorem readLoop_meta (sess : SessionData) (r : Nat) :
    ∀ (idx : Nat) (f : GdxFile) (ws : List String),
      (GdxFile.readLoop sess idx r f ws).state.filename = f.filename ∧
      (GdxFile.readLoop sess idx r f ws).state.version = f.version ∧
      (GdxFile.readLoop sess idx r f ws).state.producer = f.producer := by
  induction r with
  | zero => intro idx f ws; exact ⟨rfl, rfl, rfl⟩
  | succ m ih =>
    intro idx f ws
    unfold GdxFile.readLoop
    rcases hsi : sess.symbolInfo idx with _ | ⟨name, dims, dt⟩
    · exact ⟨rfl, rfl, rfl⟩
    · dsimp only
      rcases hc : GdxSymbol.construct sess name dt dims idx with e | ⟨sym, w⟩
      · exact ⟨rfl, rfl, rfl⟩
      · have happ1 : (f.appendSym sym).state.filename = f.filename := by
          rw [appendSym_eq]
        have happ2 : (f.appendSym sym).state.version = f.version := by
          rw [appendSym_eq]
        have happ3 : (f.appendSym sym).state.producer = f.producer := by
          rw [appendSym_eq]
        obtain ⟨h1, h2, h3⟩ := ih (idx + 1) (f.appendSym sym).state (ws ++ w)
        exact ⟨h1.trans happ1, h2.trans happ2, h3.trans happ3⟩

/-- C1 (amended): `read` on a non-empty container fails with the state error
and leaves the container exactly as it was; `read` on an empty container
whose session cannot open the path also leaves it unchanged.  But once the
open has succeeded, the filename, version and producer are bound
unconditionally — whether or not a later step fails — so a failure after the
open leaves partial mutation visible (the counterexample additionally leaves
an already-enumerated symbol behind): population is not all-or-nothing. -/
theorem C1_amended (f : GdxFile) (sess : SessionData) (fn : String) :
    (f.symbols ≠ [] →
        (f.read sess fn).state = f ∧
        (f.read sess fn).error =
          some (.stateError "GdxFile.read can only be used if the GdxFile is .empty")) ∧
    (f.symbols = [] → sess.openReadOk = false →
        (f.read sess fn).state = f ∧
        (f.read sess fn).error = some (.gdxError "Could not open file")) ∧
    (f.symbols = [] → sess.openReadOk = true →
        (f.read sess fn).state.filename = some fn ∧
        (f.read sess fn).state.version = some sess.fileVersion ∧
        (f.read sess fn).state.producer = some sess.fileProducer) := by
  refine ⟨?_, ?_, ?_⟩
  · intro hne
    have hlen : f.symbols.length ≠ 0 := by
      simpa [List.length_eq_zero] using hne
    unfold GdxFile.read
    rw [if_pos hlen]
    exact ⟨rfl, rfl⟩
  · intro hempty hopen
    have hlen : ¬ f.symbols.length ≠ 0 := by simp [hempty]
    unfold GdxFile.read
    rw [if_neg hlen, if_pos hopen]
    exact ⟨rfl, rfl⟩
  · intro hempty hopen
    have hlen : ¬ f.symbols.length ≠ 0 := by simp [hempty]
    unfold GdxFile.read
    rw [if_neg hlen, if_neg (show ¬ sess.openReadOk = false by simp [hopen])]
    dsimp only
    by_cases hv : sess.fileVersionRet ≠ 1
    · rw [if_pos hv]
      exact ⟨rfl, rfl, rfl⟩
    · rw [if_neg hv]
      rcases h0 : sess.symbolInfo 0 with _ | ⟨name, dims, dt⟩
      · exact ⟨rfl, rfl, rfl⟩
      · dsimp only
        rcases hc : GdxSymbol.construct sess name dt dims 0 with e | ⟨us, w0⟩
        · exact ⟨rfl, rfl, rfl⟩
        · dsimp only
          have hm := readLoop_meta sess sess.symbolCount 1
            { f with filename := some fn, version := some sess.fileVersion, producer := some sess.fileProducer, universal_set := some us } w0
          refine ⟨?_, ?_, ?_⟩
          · split
            · exact hm.1
            · split
              · exact hm.1
              · exact hm.1
          · split
            · exact hm.2.1
            · split
              · exact hm.2.1
              · exact hm.2.1
          · split
            · exact hm.2.2
            · split
              · exact hm.2.2
              · exact hm.2.2

/-- C1 counterexample: an empty container read against a session that opens
fine, reports its version, yields the universal set and symbol 1, and then
fails `gdxSymbolInfo` at symbol 2.  The read raises — and leaves behind the
bound filename, version, producer and one already-appended symbol: the
container is NOT exactly as it was before the call. -/
theorem C1_counterexample :
    emptyFile.symbols = [] ∧
    ((emptyFile.read sessPartial "a.gdx").error).isSome = true ∧
    (emptyFile.read sessPartial "a.gdx").state.symbols.length = 1 ∧
    (emptyFile.read sessPartial "a.gdx").state.filename = some "a.gdx" ∧
    (emptyFile.read sessPartial "a.gdx").state.version = some "V7" ∧
    emptyFile.filename = none ∧
    (emptyFile.read sessPartial "a.gdx").state ≠ emptyFile := by
  decide

theorem C1_witness :
    (oneSymbolFile.read sessPartial "b.gdx").state = oneSymbolFile ∧
    (oneSymbolFile.read sessPartial "b.gdx").error =
      some (.stateError "GdxFile.read can only be used if the GdxFile is .empty") :=
  (C1_amended oneSymbolFile sessPartial "b.gdx").1 (by decide)
